import Mathlib

/-!
Verification development for the TrafficWork glue layer: a shallow embedding of
the webhook ingestion (StripeService.handleWebhook and its per-event-type
handlers) and of the conversion-postback pipeline (KeitaroService.sendPostback,
trackRegistration, trackPurchase, retryFailedPostbacks), together with proofs
of the documented invariants.

Modelling conventions:
* The three Prisma tables touched by this slice (WebhookEvent, TrackingEvent,
  Payment) and the subscription fields embedded on User are lists of rows in a
  `DB` record; Prisma `create` is list append, `update ... where id` is a map
  over the list, `findUnique`/`findMany` are `List.find?`/`List.filter`.
  Database-generated uuids for TrackingEvent rows are modelled by a counter
  `nextTrackingId`; database-generated `createdAt` defaults are passed in as an
  explicit `now` timestamp (milliseconds, `Int`).
* Outbound HTTP is an environment: the tracker is a function from the composed
  postback request to an abstract result (a status code or a network
  failure/timeout), and the Stripe API is a function from a subscription id to
  a result or a thrown error. Issued postback requests are additionally traced
  in `World.sent`, so "issues no postback" is expressible.
* Signature verification (`stripe.webhooks.constructEvent`, vendor SDK code)
  is an abstract parameter `verify : String → String → Option StripeEvent`;
  `none` models the SDK throwing, in which case handleWebhook raises
  "Invalid webhook signature" (the literal message from the source).
* JavaScript truthiness on optional strings/numbers (`if (!x)`, `x || d`) is
  made explicit by the `strTruthy`/`jsOrStr`/`intTruthy` helpers: `null`,
  `undefined`, `""` and `0` are falsy.
* JavaScript numbers reaching the tracker are exact values of the form
  cents/100, modelled as `Rat`; `Number.prototype.toString` on such values is
  the exact decimal rendering with trailing zeros trimmed (`renderCents`).
-/

namespace TrafficWork

/-- JavaScript truthiness of a nullable string: `null`/`undefined` (here
`none`) and the empty string are falsy. -/
def strTruthy : Option String → Bool
  | none => false
  | some s => !(s == "")

/-- JavaScript `x || d` on a nullable string with a string default. -/
def jsOrStr (x : Option String) (d : String) : String :=
  if strTruthy x then x.getD d else d

/-- JavaScript `x || undefined` / `x || null` on a nullable string: a falsy
value collapses to `none`. -/
def jsOrNone (x : Option String) : Option String :=
  if strTruthy x then x else none

/-- JavaScript truthiness of a nullable integer: `null`/`undefined` and `0`
are falsy. -/
def intTruthy : Option Int → Bool
  | none => false
  | some n => !(n == 0)

/-- JavaScript `x || d` on a nullable integer with an integer default. -/
def jsOrInt (x : Option Int) (d : Int) : Int :=
  if intTruthy x then x.getD d else d

/-- JavaScript `Math.round`. -/
def jsRound (q : Rat) : Int := Int.floor (q + 1/2)

/-- Exact decimal rendering of `n / 100`, as JavaScript
`Number.prototype.toString` renders such values: no trailing zeros, no
trailing decimal point ("9.99", "9.9", "10"). -/
def renderCents (n : Int) : String :=
  let sign := if n < 0 then "-" else ""
  let m := n.natAbs
  let ip := m / 100
  let fp := m % 100
  if fp == 0 then sign ++ toString ip
  else if fp % 10 == 0 then sign ++ toString ip ++ "." ++ toString (fp / 10)
  else sign ++ toString ip ++ "." ++ (if fp < 10 then "0" else "") ++ toString fp

/-- JavaScript `toString` on the numeric values this service passes to it: all
of them are an integer number of cents divided by 100, so the denominator of
the reduced rational divides 100 and the rendering is the exact decimal.
Other denominators do not occur in this codebase. -/
def ratToJsString (q : Rat) : String :=
  if (100 : Int) % (q.den : Int) == 0 then renderCents (q.num * ((100 : Int) / (q.den : Int)))
  else toString q.num ++ "/" ++ toString q.den

/-! ## Data model (rows of the three Prisma tables and the User entity) -/

/-- One row of the WebhookEvent table (the Event Store). `processed` defaults
to `false` in the schema; `processedAt` and `error` are nullable. -/
structure WebhookEventRow where
  source : String
  eventId : String
  eventType : String
  processed : Bool
  processedAt : Option Int
  error : Option String
  createdAt : Int
deriving DecidableEq, Repr

/-- One row of the TrackingEvent table (the Conversion Ledger).
`sentToTracker` defaults to `false` in the schema. Amounts are integer minor
units (cents), as the schema's `amount Int` column. -/
structure TrackingEventRow where
  id : Nat
  userId : Option String
  eventType : String
  subId : Option String
  status : Option String
  amount : Option Int
  currency : Option String
  sentToTracker : Bool
  sentAt : Option Int
  createdAt : Int
deriving DecidableEq, Repr

/-- One row of the Payment table. -/
structure PaymentRow where
  userId : String
  stripePaymentId : String
  amount : Int
  currency : String
  status : String
  paymentMethod : String
  keitaroSubId : Option String
deriving DecidableEq, Repr

/-- The User entity, restricted to the fields this slice reads or writes. -/
structure UserRow where
  id : String
  keitaroSubId : Option String
  subscriptionId : Option String
  subscriptionStatus : Option String
  subscriptionPlan : Option String
  subscriptionEndDate : Option Int
deriving DecidableEq, Repr

/-- The persistent state: the three tables plus the User rows, with a counter
standing in for database-generated TrackingEvent row ids. -/
structure DB where
  webhookEvents : List WebhookEventRow
  users : List UserRow
  payments : List PaymentRow
  trackingEvents : List TrackingEventRow
  nextTrackingId : Nat
deriving DecidableEq, Repr

/-- Prisma `user.findUnique({ where: { id } })`. -/
def findUser (db : DB) (userId : String) : Option UserRow :=
  db.users.find? (fun u => decide (u.id = userId))

/-- Prisma `trackingEvent` lookup by row id. -/
def findTracking (db : DB) (i : Nat) : Option TrackingEventRow :=
  db.trackingEvents.find? (fun r => decide (r.id = i))

/-- Prisma `webhookEvent.findUnique({ where: { eventId } })`. -/
def findWebhookRow (db : DB) (eventId : String) : Option WebhookEventRow :=
  db.webhookEvents.find? (fun r => decide (r.eventId = eventId))

/-! ## Keitaro postback dispatcher -/

/-- Keitaro configuration (`config.keitaro`): tracker base url, shared postback
key, and the status codes used for registration and purchase conversions
(defaults "reg" and "sale"). -/
structure KeitaroCfg where
  trackerUrl : String
  postbackKey : String
  statusRegistration : String
  statusPurchase : String
deriving DecidableEq, Repr

/-- The composed outbound postback: base url plus the ordered query parameters
built by `URLSearchParams` in `sendPostback`. -/
structure PostbackRequest where
  base : String
  params : List (String × String)
deriving DecidableEq, Repr

/-- Outcome of the axios GET: a response with some status code, or a network
failure/timeout (axios throwing without a response). -/
inductive HttpResult where
  | response (status : Nat)
  | networkError
deriving DecidableEq, Repr

/-- The tracker environment: what the tracker answers to a given request. -/
structure Tracker where
  respond : PostbackRequest → HttpResult

/-- The world: the database plus the trace of postback requests issued so far
(the observable outbound-HTTP effect). -/
structure World where
  db : DB
  sent : List PostbackRequest

/-- The query parameters of `sendPostback`:
`URLSearchParams({subid, status, key})`, then `payout` appended when `amount`
is not `undefined` (amount is in major units here; `toString` renders it),
then `currency` appended when truthy. -/
def postbackParams (cfg : KeitaroCfg) (clickId status : String)
    (amount : Option Rat) (currency : Option String) : List (String × String) :=
  [("subid", clickId), ("status", status), ("key", cfg.postbackKey)]
    ++ (match amount with
        | some a => [("payout", ratToJsString a)]
        | none => [])
    ++ (if strTruthy currency then [("currency", currency.getD "")] else [])

/-- The full postback request composed by `sendPostback`:
`GET ${trackerUrl}/postback?${params}`. -/
def postbackRequest (cfg : KeitaroCfg) (clickId status : String)
    (amount : Option Rat) (currency : Option String) : PostbackRequest :=
  { base := cfg.trackerUrl ++ "/postback", params := postbackParams cfg clickId status amount currency }

/-- Classification of the axios outcome in `sendPostback`: the call is made
with `validateStatus: (status) => status < 500`, so a status of 500 or more
makes axios throw, which the surrounding catch turns into `false`, as does a
network failure/timeout; for an accepted response, `true` exactly when the
status is 200, `false` otherwise. -/
def classifyResponse : HttpResult → Bool
  | .networkError => false
  | .response st => if st < 500 then st == 200 else false

/-- `KeitaroService.sendPostback`: compose the request, issue it (traced in
`World.sent`), and classify the outcome. Never throws: every failure is caught
and reported as `false`. -/
def sendPostback (cfg : KeitaroCfg) (tr : Tracker) (clickId status : String)
    (amount : Option Rat) (currency : Option String) (w : World) : Bool × World :=
  let req := postbackRequest cfg clickId status amount currency
  (classifyResponse (tr.respond req), { w with sent := w.sent ++ [req] })

/-- The pure boolean outcome of a `sendPostback` call against tracker `tr`. -/
def postbackResult (cfg : KeitaroCfg) (tr : Tracker) (clickId status : String)
    (amount : Option Rat) (currency : Option String) : Bool :=
  classifyResponse (tr.respond (postbackRequest cfg clickId status amount currency))

/-- The row transformation of Prisma
`trackingEvent.update({ where: { id }, data: { sentToTracker, sentAt } })`:
touch exactly the row with the matching id. -/
def sentRow (i : Nat) (sent : Bool) (ts : Option Int) (r : TrackingEventRow) : TrackingEventRow :=
  if r.id == i then { r with sentToTracker := sent, sentAt := ts } else r

/-- Prisma `trackingEvent.update({ where: { id }, data: { sentToTracker, sentAt } })`. -/
def updateTrackingSent (db : DB) (i : Nat) (sent : Bool) (ts : Option Int) : DB :=
  { db with trackingEvents := db.trackingEvents.map (sentRow i sent ts) }

/-- `KeitaroService.trackRegistration(userId, clickId?)`: fall back to the
User's stored `keitaroSubId` when the argument is falsy; no-op when neither is
available; otherwise create a TrackingEvent row, send the postback with the
registration status, and record the outcome on the row. -/
def trackRegistration (cfg : KeitaroCfg) (tr : Tracker) (now : Int)
    (userId : String) (clickId : Option String) (w : World) : World :=
  let cid : Option String :=
    if strTruthy clickId then clickId
    else match findUser w.db userId with
         | some u => jsOrNone u.keitaroSubId
         | none => none
  if strTruthy cid = false then w
  else
    let row : TrackingEventRow :=
      { id := w.db.nextTrackingId, userId := some userId, eventType := "registration",
        subId := cid, status := some cfg.statusRegistration, amount := none,
        currency := none, sentToTracker := false, sentAt := none, createdAt := now }
    let w1 : World := { w with db := { w.db with
        trackingEvents := w.db.trackingEvents ++ [row],
        nextTrackingId := w.db.nextTrackingId + 1 } }
    let r := sendPostback cfg tr (cid.getD "") cfg.statusRegistration none none w1
    { r.2 with db := updateTrackingSent r.2.db row.id r.1 (if r.1 then some now else none) }

/-- `KeitaroService.trackPurchase(userId, amount, currency, clickId?)`: same
clickId fallback; the row stores `Math.round(amount)` (integer minor units);
the postback is sent with `amount / 100` (major units) and the currency; the
outcome is recorded on the row. -/
def trackPurchase (cfg : KeitaroCfg) (tr : Tracker) (now : Int)
    (userId : String) (amount : Rat) (currency : String) (clickId : Option String)
    (w : World) : World :=
  let cid : Option String :=
    if strTruthy clickId then clickId
    else match findUser w.db userId with
         | some u => jsOrNone u.keitaroSubId
         | none => none
  if strTruthy cid = false then w
  else
    let row : TrackingEventRow :=
      { id := w.db.nextTrackingId, userId := some userId, eventType := "purchase",
        subId := cid, status := some cfg.statusPurchase, amount := some (jsRound amount),
        currency := some currency, sentToTracker := false, sentAt := none, createdAt := now }
    let w1 : World := { w with db := { w.db with
        trackingEvents := w.db.trackingEvents ++ [row],
        nextTrackingId := w.db.nextTrackingId + 1 } }
    let r := sendPostback cfg tr (cid.getD "") cfg.statusPurchase (some (amount / 100)) (some currency) w1
    { r.2 with db := updateTrackingSent r.2.db row.id r.1 (if r.1 then some now else none) }

/-! ## Retry sweeper -/

/-- The rows `retryFailedPostbacks` selects: `sentToTracker = false` and
`createdAt >= Date.now() - 24*60*60*1000`, `take: 100`. -/
def selectedEvents (now : Int) (db : DB) : List TrackingEventRow :=
  (db.trackingEvents.filter fun e =>
    !e.sentToTracker && decide (now - 86400000 ≤ e.createdAt)).take 100

/-- One iteration of the retry loop body, with the postback dispatch inlined as
in the source: skip when `subId` is falsy; send with the registration status
for a "registration" row, with `amount / 100` and the currency for a
"purchase" row with a truthy amount; anything else leaves `success = false`;
on success update the row to sent with a timestamp. -/
def retryOne (cfg : KeitaroCfg) (tr : Tracker) (now : Int)
    (w : World) (e : TrackingEventRow) : World :=
  if strTruthy e.subId = false then w
  else
    let r :=
      if e.eventType = "registration" then
        sendPostback cfg tr (e.subId.getD "") (jsOrStr e.status cfg.statusRegistration) none none w
      else if e.eventType = "purchase" ∧ intTruthy e.amount then
        sendPostback cfg tr (e.subId.getD "") (jsOrStr e.status cfg.statusPurchase)
          (some ((e.amount.getD 0 : Int) / (100 : Rat))) (some (jsOrStr e.currency "USD")) w
      else (false, w)
    if r.1 then { r.2 with db := updateTrackingSent r.2.db e.id true (some now) } else r.2

/-- `KeitaroService.retryFailedPostbacks`: select the eligible batch, then run
the loop body over it. -/
def retryFailedPostbacks (cfg : KeitaroCfg) (tr : Tracker) (now : Int) (w : World) : World :=
  (selectedEvents now w.db).foldl (retryOne cfg tr now) w

/-- Whether the retry loop body issues a postback for row `e`, and with which
outcome: `none` when the row is skipped (falsy subId, unrecognized event type,
or a purchase without a truthy amount); `some b` when a postback is issued and
classified as `b`. -/
def retryAttempt (cfg : KeitaroCfg) (tr : Tracker) (e : TrackingEventRow) : Option Bool :=
  if strTruthy e.subId = false then none
  else if e.eventType = "registration" then
    some (postbackResult cfg tr (e.subId.getD "") (jsOrStr e.status cfg.statusRegistration) none none)
  else if e.eventType = "purchase" ∧ intTruthy e.amount then
    some (postbackResult cfg tr (e.subId.getD "") (jsOrStr e.status cfg.statusPurchase)
      (some ((e.amount.getD 0 : Int) / (100 : Rat))) (some (jsOrStr e.currency "USD")))
  else none

/-- Whether the retry loop body marks row `e` as sent. -/
def retrySuccess (cfg : KeitaroCfg) (tr : Tracker) (e : TrackingEventRow) : Bool :=
  (retryAttempt cfg tr e).getD false

/-- The row update the sweeper applies on success. -/
def markSentRow (now : Int) (r : TrackingEventRow) : TrackingEventRow :=
  { r with sentToTracker := true, sentAt := some now }

/-- The per-row effect of the retry-loop iteration for batch element `e` on an
arbitrary row `r` of the ledger: when the iteration for `e` succeeds, the row
with id `e.id` is marked sent; every other row is untouched. -/
def rowAfterRetry (cfg : KeitaroCfg) (tr : Tracker) (now : Int)
    (e r : TrackingEventRow) : TrackingEventRow :=
  if retrySuccess cfg tr e then sentRow e.id true (some now) r else r

/-- The cumulative per-row effect of the whole retry batch. -/
def foldRow (cfg : KeitaroCfg) (tr : Tracker) (now : Int)
    (es : List TrackingEventRow) (r : TrackingEventRow) : TrackingEventRow :=
  es.foldl (fun r e => rowAfterRetry cfg tr now e r) r

/-! ## Stripe webhook reconciler -/

/-- Stripe configuration used by the handlers: the annual price id
(`config.stripe.prices.annual`), against which the subscription's price id is
compared to derive the plan. -/
structure StripeCfg where
  priceAnnual : String
deriving DecidableEq, Repr

/-- A Stripe subscription object, restricted to the fields the handlers read:
`items.data[0]?.price.id` (absent when the items list is empty), `status`,
`current_period_end` (seconds), and the `userId` / `keitaroSubId` metadata. -/
structure StripeSubscription where
  id : String
  status : String
  priceId : Option String
  currentPeriodEnd : Int
  metadataUserId : Option String
  metadataKeitaroSubId : Option String
deriving DecidableEq, Repr

/-- A Stripe checkout session, restricted to the fields
`handleCheckoutSessionCompleted` reads. -/
structure CheckoutSession where
  metadataUserId : Option String
  metadataKeitaroSubId : Option String
  subscription : Option String
  paymentIntent : Option String
  amountTotal : Option Int
  currency : Option String
deriving DecidableEq, Repr

/-- A Stripe invoice, restricted to the fields the invoice handlers read. -/
structure StripeInvoice where
  subscription : Option String
  paymentIntent : Option String
  amountPaid : Int
  currency : String
deriving DecidableEq, Repr

/-- The `data.object` of a Stripe event. In the Stripe API the event's `type`
determines the shape of this object; the source casts accordingly. -/
inductive StripeEventObject where
  | checkoutSession (s : CheckoutSession)
  | subscription (s : StripeSubscription)
  | invoice (i : StripeInvoice)
  | other
deriving DecidableEq, Repr

/-- A verified Stripe event as returned by `constructEvent`. -/
structure StripeEvent where
  id : String
  type : String
  object : StripeEventObject
deriving DecidableEq, Repr

/-- The Stripe API environment: `stripe.subscriptions.retrieve`, which either
returns the subscription or throws (modelled as `Except.error` carrying the
thrown message). -/
structure StripeApi where
  retrieveSubscription : String → Except String StripeSubscription

/-- `stripe.subscriptions.retrieve(x as string)` where `x` may be null: the
SDK throws when no id is supplied. -/
def retrieveSub (api : StripeApi) (sid : Option String) : Except String StripeSubscription :=
  match sid with
  | some s => api.retrieveSubscription s
  | none => .error "No subscription id"

/-- `StripeService.updateUserSubscription`: derive the plan from the price id,
convert `current_period_end` from seconds to a millisecond timestamp, and
update the User row. Prisma `update` throws when no row matches the `where`;
the thrown message is returned as `some msg`. -/
def updateUserSubscription (scfg : StripeCfg) (db : DB) (userId : String)
    (sub : StripeSubscription) : DB × Option String :=
  let plan := if sub.priceId = some scfg.priceAnnual then "annual" else "monthly"
  if (findUser db userId).isSome then
    ({ db with users := db.users.map fun u =>
        if u.id == userId then
          { u with subscriptionId := some sub.id, subscriptionStatus := some sub.status,
                   subscriptionPlan := some plan,
                   subscriptionEndDate := some (sub.currentPeriodEnd * 1000) }
        else u }, none)
  else (db, some "Record to update not found.")

/-- Prisma `payment.create`. -/
def createPayment (db : DB) (p : PaymentRow) : DB :=
  { db with payments := db.payments ++ [p] }

/-- `StripeService.handleCheckoutSessionCompleted`: no-op without a `userId` in
the session metadata; retrieve the subscription (may throw), refresh the
User's subscription fields (may throw), and when a payment intent is attached
record a Payment row. -/
def handleCheckoutSessionCompleted (scfg : StripeCfg) (api : StripeApi)
    (s : CheckoutSession) (db : DB) : DB × Option String :=
  if strTruthy s.metadataUserId = false then (db, none)
  else
    let userId := s.metadataUserId.getD ""
    match retrieveSub api s.subscription with
    | .error msg => (db, some msg)
    | .ok sub =>
      match updateUserSubscription scfg db userId sub with
      | (db1, some msg) => (db1, some msg)
      | (db1, none) =>
        if strTruthy s.paymentIntent then
          (createPayment db1
            { userId := userId, stripePaymentId := s.paymentIntent.getD "",
              amount := jsOrInt s.amountTotal 0, currency := jsOrStr s.currency "usd",
              status := "succeeded", paymentMethod := "card",
              keitaroSubId := jsOrNone s.metadataKeitaroSubId }, none)
        else (db1, none)

/-- `StripeService.handleSubscriptionUpdate` (for both subscription.created and
subscription.updated): no-op without a `userId` in the subscription metadata;
otherwise refresh the User's subscription fields. -/
def handleSubscriptionUpdate (scfg : StripeCfg) (sub : StripeSubscription)
    (db : DB) : DB × Option String :=
  if strTruthy sub.metadataUserId = false then (db, none)
  else updateUserSubscription scfg db (sub.metadataUserId.getD "") sub

/-- `StripeService.handleSubscriptionDeleted`: no-op without a `userId`;
otherwise set the User's status to "canceled" and the end date to the event's
period end. Prisma `update` throws when the User row is missing. -/
def handleSubscriptionDeleted (sub : StripeSubscription) (db : DB) : DB × Option String :=
  if strTruthy sub.metadataUserId = false then (db, none)
  else
    let userId := sub.metadataUserId.getD ""
    if (findUser db userId).isSome then
      ({ db with users := db.users.map fun u =>
          if u.id == userId then
            { u with subscriptionStatus := some "canceled",
                     subscriptionEndDate := some (sub.currentPeriodEnd * 1000) }
          else u }, none)
    else (db, some "Record to update not found.")

/-- `StripeService.handleInvoicePaymentSucceeded`: no-op unless the invoice
carries both a subscription and a payment intent; retrieve the subscription
(may throw); no-op without a `userId` in its metadata; otherwise record a
Payment row, taking the click identifier from the subscription's metadata. -/
def handleInvoicePaymentSucceeded (api : StripeApi) (inv : StripeInvoice)
    (db : DB) : DB × Option String :=
  if strTruthy inv.subscription = false ∨ strTruthy inv.paymentIntent = false then (db, none)
  else
    match retrieveSub api inv.subscription with
    | .error msg => (db, some msg)
    | .ok sub =>
      if strTruthy sub.metadataUserId = false then (db, none)
      else
        (createPayment db
          { userId := sub.metadataUserId.getD "", stripePaymentId := inv.paymentIntent.getD "",
            amount := inv.amountPaid, currency := inv.currency, status := "succeeded",
            paymentMethod := "card", keitaroSubId := jsOrNone sub.metadataKeitaroSubId }, none)

/-- `StripeService.handleInvoicePaymentFailed`: no-op without a subscription on
the invoice; retrieve it (may throw); no-op without a `userId`; otherwise set
the User's status to "past_due". -/
def handleInvoicePaymentFailed (api : StripeApi) (inv : StripeInvoice)
    (db : DB) : DB × Option String :=
  if strTruthy inv.subscription = false then (db, none)
  else
    match retrieveSub api inv.subscription with
    | .error msg => (db, some msg)
    | .ok sub =>
      if strTruthy sub.metadataUserId = false then (db, none)
      else
        let userId := sub.metadataUserId.getD ""
        if (findUser db userId).isSome then
          ({ db with users := db.users.map fun u =>
              if u.id == userId then { u with subscriptionStatus := some "past_due" } else u }, none)
        else (db, some "Record to update not found.")

/-- The event type strings with a dedicated case in the `handleWebhook` switch
(five handlers; subscription.created and subscription.updated share one). -/
def recognizedEventTypes : List String :=
  ["checkout.session.completed", "customer.subscription.created",
   "customer.subscription.updated", "customer.subscription.deleted",
   "invoice.payment_succeeded", "invoice.payment_failed"]

/-- The switch in `handleWebhook`: dispatch on `event.type` to the matching
handler; any other type only logs and changes nothing. In the Stripe API the
event type determines the payload shape, so a recognized type whose payload is
of a different shape reads as an object with no fields and the handler returns
early; this is modelled as a no-op. Returns the (possibly partially updated)
database and `some msg` when the handler threw `msg`. -/
def dispatchEvent (scfg : StripeCfg) (api : StripeApi) (event : StripeEvent)
    (db : DB) : DB × Option String :=
  if event.type = "checkout.session.completed" then
    match event.object with
    | .checkoutSession s => handleCheckoutSessionCompleted scfg api s db
    | _ => (db, none)
  else if event.type = "customer.subscription.created" ∨
          event.type = "customer.subscription.updated" then
    match event.object with
    | .subscription s => handleSubscriptionUpdate scfg s db
    | _ => (db, none)
  else if event.type = "customer.subscription.deleted" then
    match event.object with
    | .subscription s => handleSubscriptionDeleted s db
    | _ => (db, none)
  else if event.type = "invoice.payment_succeeded" then
    match event.object with
    | .invoice i => handleInvoicePaymentSucceeded api i db
    | _ => (db, none)
  else if event.type = "invoice.payment_failed" then
    match event.object with
    | .invoice i => handleInvoicePaymentFailed api i db
    | _ => (db, none)
  else (db, none)

/-- The WebhookEvent row created on first receipt: `source: 'stripe'`, the
event's id and type, `processed` at its schema default `false`. -/
def newEventRow (event : StripeEvent) (now : Int) : WebhookEventRow :=
  { source := "stripe", eventId := event.id, eventType := event.type,
    processed := false, processedAt := none, error := none, createdAt := now }

/-- Prisma `webhookEvent.create` in `handleWebhook`. -/
def insertEventRow (db : DB) (event : StripeEvent) (now : Int) : DB :=
  { db with webhookEvents := db.webhookEvents ++ [newEventRow event now] }

/-- The two `webhookEvent.update` calls at the end of `handleWebhook`: on
success (`err = none`) set `processed` and `processedAt`, leaving the `error`
column untouched; on a handler exception (`err = some msg`) additionally
record the message. -/
def markRow (eventId : String) (now : Int) (err : Option String)
    (r : WebhookEventRow) : WebhookEventRow :=
  if r.eventId == eventId then
    { r with processed := true, processedAt := some now,
             error := match err with | some m => some m | none => r.error }
  else r

/-- The update applied to the Event Store at the end of `handleWebhook`. -/
def markEventProcessed (db : DB) (eventId : String) (now : Int)
    (err : Option String) : DB :=
  { db with webhookEvents := db.webhookEvents.map (markRow eventId now err) }

/-- `StripeService.handleWebhook(signature, payload)`: verify the signature
(`constructEvent`; a failure raises "Invalid webhook signature" before any
state change); return success immediately when the event id is already stored
(idempotent receipt); otherwise insert the row, dispatch by type, and mark the
row processed — recording and re-raising the handler's exception when one was
thrown. The returned `Except` is the function's outcome (`.error` = throw). -/
def handleWebhook (scfg : StripeCfg) (api : StripeApi)
    (verify : String → String → Option StripeEvent)
    (signature payload : String) (now : Int) (db : DB) : Except String Unit × DB :=
  match verify payload signature with
  | none => (.error "Invalid webhook signature", db)
  | some event =>
    if (findWebhookRow db event.id).isSome then (.ok (), db)
    else
      let db1 := insertEventRow db event now
      match dispatchEvent scfg api event db1 with
      | (db2, none) => (.ok (), markEventProcessed db2 event.id now none)
      | (db2, some msg) => (.error msg, markEventProcessed db2 event.id now (some msg))

/-! ## Concrete instances used by the witnesses -/

/-- A concrete Keitaro configuration (the environment defaults "reg"/"sale"). -/
def cfgEx : KeitaroCfg :=
  { trackerUrl := "https://tracker.example", postbackKey := "k1",
    statusRegistration := "reg", statusPurchase := "sale" }

/-- The empty database. -/
def emptyDB : DB :=
  { webhookEvents := [], users := [], payments := [], trackingEvents := [], nextTrackingId := 0 }

/-- The empty world. -/
def emptyWorld : World := { db := emptyDB, sent := [] }

/-- A tracker that always answers 200. -/
def tracker200 : Tracker := ⟨fun _ => .response 200⟩

/-- A tracker that always answers 404. -/
def tracker404 : Tracker := ⟨fun _ => .response 404⟩

/-- A tracker that always fails at the network level (timeout). -/
def trackerDown : Tracker := ⟨fun _ => .networkError⟩

/-- A concrete Stripe configuration. -/
def scfgEx : StripeCfg := { priceAnnual := "price_annual" }

/-- A Stripe API whose every retrieval throws. -/
def apiDown : StripeApi := ⟨fun _ => .error "No such subscription"⟩

/-- A concrete already-stored event row for the C1 witness. -/
def storedRowEx : WebhookEventRow :=
  { source := "stripe", eventId := "evt_1", eventType := "customer.subscription.deleted",
    processed := true, processedAt := some 500, error := none, createdAt := 400 }

/-- A database already holding `evt_1`. -/
def dbWithEvt1 : DB := { emptyDB with webhookEvents := [storedRowEx] }

/-- A concrete redelivered event `evt_1`. -/
def evt1Again : StripeEvent :=
  { id := "evt_1", type := "customer.subscription.deleted",
    object := .subscription
      { id := "sub_1", status := "canceled", priceId := none, currentPeriodEnd := 1700000000,
        metadataUserId := some "u1", metadataKeitaroSubId := none } }

/-- A user with a stored click identifier, for the C10 witness. -/
def userWithSub : UserRow :=
  { id := "u1", keitaroSubId := some "stored_click", subscriptionId := none,
    subscriptionStatus := none, subscriptionPlan := none, subscriptionEndDate := none }

/-- A world holding only `userWithSub`. -/
def worldUser : World := { db := { emptyDB with users := [userWithSub] }, sent := [] }

/-- An unsent registration row created one hour before the retry fixture's
`now` of 100000000 ms — inside the 24-hour window. -/
def rowFresh : TrackingEventRow :=
  { id := 1, userId := some "u1", eventType := "registration", subId := some "c1",
    status := some "reg", amount := none, currency := none, sentToTracker := false,
    sentAt := none, createdAt := 99000000 }

/-- An unsent registration row created 25 hours before the retry fixture's
`now` — outside the 24-hour window. -/
def rowOld : TrackingEventRow :=
  { id := 2, userId := some "u2", eventType := "registration", subId := some "c2",
    status := some "reg", amount := none, currency := none, sentToTracker := false,
    sentAt := none, createdAt := 10000000 }

/-- An unsent row of an event type the retry loop does not re-send. -/
def rowCustom : TrackingEventRow :=
  { id := 3, userId := none, eventType := "custom", subId := some "c3",
    status := none, amount := none, currency := none, sentToTracker := false,
    sentAt := none, createdAt := 99000000 }

/-- The retry-sweeper fixture world. -/
def wRetry : World :=
  { db := { emptyDB with
              trackingEvents := [rowFresh, rowOld, rowCustom],
              nextTrackingId := 4 },
    sent := [] }


/-! ## Helper lemmas -/

theorem map_eq_self_of {α : Type} {f : α → α} {l : List α}
    (h : ∀ x ∈ l, f x = x) : l.map f = l := by
  induction l with
  | nil => rfl
  | cons x l ih =>
    rw [List.map_cons, h x (List.mem_cons_self x l), ih fun y hy => h y (List.mem_cons_of_mem x hy)]

/-! ## Claim C2 — signature failure mutates nothing -/

/-- Claim C2: when signature verification fails (`constructEvent` throws, which
covers altered body bytes and timestamps outside tolerance), `handleWebhook`
raises "Invalid webhook signature" and the database is returned unchanged: no
InboundEvent row is created and no subscription, payment, or user field is
mutated. -/
theorem handleWebhook_invalid_signature (scfg : StripeCfg) (api : StripeApi)
    (verify : String → String → Option StripeEvent) (signature payload : String)
    (now : Int) (db : DB) (hv : verify payload signature = none) :
    handleWebhook scfg api verify signature payload now db =
      (.error "Invalid webhook signature", db) := by
  simp [handleWebhook, hv]

/-- Witness for C2 at a concrete input: a verifier that rejects everything. -/
theorem handleWebhook_invalid_signature_witness :
    handleWebhook scfgEx apiDown (fun _ _ => none) "t=1,v1=bad" "{}" 1000 emptyDB =
      (.error "Invalid webhook signature", emptyDB) :=
  handleWebhook_invalid_signature scfgEx apiDown (fun _ _ => none) "t=1,v1=bad" "{}" 1000 emptyDB rfl

/-! ## Claim C1 — duplicate delivery is an idempotent no-op -/

/-- Claim C1: when the event id of a verified inbound event already has a
stored WebhookEvent row, `handleWebhook` returns success with the database
unchanged: no handler runs, no row is created or modified, and a second
delivery of the same event id leaves the Event Store exactly as it was. -/
theorem handleWebhook_duplicate_noop (scfg : StripeCfg) (api : StripeApi)
    (verify : String → String → Option StripeEvent) (signature payload : String)
    (now : Int) (db : DB) (ev : StripeEvent)
    (hv : verify payload signature = some ev)
    (hdup : ∃ r ∈ db.webhookEvents, r.eventId = ev.id) :
    handleWebhook scfg api verify signature payload now db = (.ok (), db) := by
  obtain ⟨r, hr, he⟩ := hdup
  have hs : (findWebhookRow db ev.id).isSome = true := by
    rw [findWebhookRow]
    exact List.find?_isSome.mpr ⟨r, hr, by simp [he]⟩
  simp [handleWebhook, hv, hs]

/-- Witness for C1 at a concrete input: redelivery of `evt_1` returns success
and changes nothing. -/
theorem handleWebhook_duplicate_noop_witness :
    handleWebhook scfgEx apiDown (fun _ _ => some evt1Again) "sig" "{}" 1000 dbWithEvt1 =
      (.ok (), dbWithEvt1) :=
  handleWebhook_duplicate_noop scfgEx apiDown (fun _ _ => some evt1Again) "sig" "{}" 1000
    dbWithEvt1 evt1Again rfl ⟨storedRowEx, by simp [dbWithEvt1, emptyDB], rfl⟩

/-! ## Claim C3 — classification of the postback response -/

/-- Counterexample to C3 as stated: a 404 response is in the 4xx range, so the
claim says `sendPostback` classifies it as delivered (returns `true`); the
code returns `true` only for status 200, so the call returns `false`. -/
theorem sendPostback_404_not_delivered :
    (sendPostback cfgEx tracker404 "click1" "reg" none none emptyWorld).1 = false := by
  rfl

/-- Claim C3 (amended): `sendPostback` classifies a response as delivered
(returns `true`) exactly when its HTTP status is 200; every other status —
including other 2xx, 3xx and 4xx — as well as 5xx and network failure is
classified as failed (returns `false`), and no outcome raises. -/
theorem sendPostback_delivered_iff_200 (cfg : KeitaroCfg) (tr : Tracker)
    (clickId status : String) (amount : Option Rat) (currency : Option String) (w : World) :
    (sendPostback cfg tr clickId status amount currency w).1 = true ↔
      tr.respond (postbackRequest cfg clickId status amount currency) = .response 200 := by
  simp only [sendPostback]
  cases h : tr.respond (postbackRequest cfg clickId status amount currency) with
  | networkError => simp [classifyResponse]
  | response st =>
    simp only [classifyResponse]
    by_cases h5 : st < 500
    · simp only [if_pos h5, beq_iff_eq, HttpResult.response.injEq]
    · have : st ≠ 200 := by omega
      simp [if_neg h5, this]

/-! ## Claim C8 — unrecognized event types are stored and marked, nothing else -/

/-- The switch of `handleWebhook` falls through to the logging default on any
event type without a dedicated case, leaving the database untouched. -/
theorem dispatchEvent_unknown (scfg : StripeCfg) (api : StripeApi) (ev : StripeEvent)
    (db : DB) (hty : ev.type ∉ recognizedEventTypes) :
    dispatchEvent scfg api ev db = (db, none) := by
  simp only [recognizedEventTypes, List.mem_cons, List.not_mem_nil, or_false, not_or] at hty
  obtain ⟨h1, h2, h3, h4, h5, h6⟩ := hty
  simp [dispatchEvent, h1, h2, h3, h4, h5, h6]

/-- Claim C8: a verified event with a fresh id and a type outside the
recognized set is stored, marked `processed = true` with a `null` error and a
processed timestamp, and nothing else changes: the resulting database differs
from the original only by the one appended, already-processed WebhookEvent
row (users, payments and tracking events are untouched), and the call
succeeds. -/
theorem handleWebhook_unknown_type (scfg : StripeCfg) (api : StripeApi)
    (verify : String → String → Option StripeEvent) (signature payload : String)
    (now : Int) (db : DB) (ev : StripeEvent)
    (hv : verify payload signature = some ev)
    (hfresh : ∀ r ∈ db.webhookEvents, r.eventId ≠ ev.id)
    (hty : ev.type ∉ recognizedEventTypes) :
    handleWebhook scfg api verify signature payload now db =
      (.ok (), { db with webhookEvents := db.webhookEvents ++
        [{ source := "stripe", eventId := ev.id, eventType := ev.type,
           processed := true, processedAt := some now, error := none, createdAt := now }] }) := by
  have hnone : findWebhookRow db ev.id = none := by
    rw [findWebhookRow]
    exact List.find?_eq_none.mpr fun r hr => by simp [hfresh r hr]
  have hold : db.webhookEvents.map (markRow ev.id now none) = db.webhookEvents :=
    map_eq_self_of fun r hr => by simp [markRow, hfresh r hr]
  simp only [handleWebhook, hv, hnone, Option.isSome_none, Bool.false_eq_true, if_false,
    dispatchEvent_unknown scfg api ev _ hty, markEventProcessed, insertEventRow,
    newEventRow, List.map_append, hold]
  simp [markRow]

/-- Witness for C8 at a concrete input: an event of the novel type
"entitlement.granted" with a fresh id against the empty database. -/
theorem handleWebhook_unknown_type_witness :
    handleWebhook scfgEx apiDown
      (fun _ _ => some { id := "evt_9", type := "entitlement.granted", object := .other })
      "sig" "{}" 2000 emptyDB =
      (.ok (), { emptyDB with webhookEvents :=
        [{ source := "stripe", eventId := "evt_9", eventType := "entitlement.granted",
           processed := true, processedAt := some 2000, error := none, createdAt := 2000 }] }) := by
  have h := handleWebhook_unknown_type scfgEx apiDown
    (fun _ _ => some { id := "evt_9", type := "entitlement.granted", object := .other })
    "sig" "{}" 2000 emptyDB { id := "evt_9", type := "entitlement.granted", object := .other }
    rfl (by simp [emptyDB]) (by decide)
  simpa [emptyDB] using h

/-! ## Claim C6 — handler exceptions are recorded and re-raised -/

theorem updateUserSubscription_webhookEvents (scfg : StripeCfg) (db : DB) (uid : String)
    (sub : StripeSubscription) :
    (updateUserSubscription scfg db uid sub).1.webhookEvents = db.webhookEvents := by
  simp only [updateUserSubscription]
  split <;> rfl

theorem handleCheckoutSessionCompleted_webhookEvents (scfg : StripeCfg) (api : StripeApi)
    (s : CheckoutSession) (db : DB) :
    (handleCheckoutSessionCompleted scfg api s db).1.webhookEvents = db.webhookEvents := by
  simp only [handleCheckoutSessionCompleted]
  split
  · rfl
  · split
    · rfl
    · rename_i sub heq0
      split
      · rename_i db1 msg heq
        have h := updateUserSubscription_webhookEvents scfg db (s.metadataUserId.getD "") sub
        rw [heq] at h
        exact h
      · rename_i db1 heq
        have h := updateUserSubscription_webhookEvents scfg db (s.metadataUserId.getD "") sub
        rw [heq] at h
        split <;> exact h

theorem handleSubscriptionUpdate_webhookEvents (scfg : StripeCfg)
    (sub : StripeSubscription) (db : DB) :
    (handleSubscriptionUpdate scfg sub db).1.webhookEvents = db.webhookEvents := by
  rw [handleSubscriptionUpdate]
  split
  · rfl
  · exact updateUserSubscription_webhookEvents scfg db (sub.metadataUserId.getD "") sub

theorem handleSubscriptionDeleted_webhookEvents (sub : StripeSubscription) (db : DB) :
    (handleSubscriptionDeleted sub db).1.webhookEvents = db.webhookEvents := by
  simp only [handleSubscriptionDeleted]
  split
  · rfl
  · split <;> rfl

theorem handleInvoicePaymentSucceeded_webhookEvents (api : StripeApi)
    (inv : StripeInvoice) (db : DB) :
    (handleInvoicePaymentSucceeded api inv db).1.webhookEvents = db.webhookEvents := by
  rw [handleInvoicePaymentSucceeded]
  split
  · rfl
  · split
    · rfl
    · split <;> rfl

theorem handleInvoicePaymentFailed_webhookEvents (api : StripeApi)
    (inv : StripeInvoice) (db : DB) :
    (handleInvoicePaymentFailed api inv db).1.webhookEvents = db.webhookEvents := by
  simp only [handleInvoicePaymentFailed]
  split
  · rfl
  · split
    · rfl
    · split
      · rfl
      · split <;> rfl

/-- No per-event-type handler touches the Event Store: dispatching changes at
most users and payments. -/
theorem dispatchEvent_webhookEvents (scfg : StripeCfg) (api : StripeApi)
    (ev : StripeEvent) (db : DB) :
    (dispatchEvent scfg api ev db).1.webhookEvents = db.webhookEvents := by
  rw [dispatchEvent]
  (repeat' split) <;>
    first
      | rfl
      | apply handleCheckoutSessionCompleted_webhookEvents
      | apply handleSubscriptionUpdate_webhookEvents
      | apply handleSubscriptionDeleted_webhookEvents
      | apply handleInvoicePaymentSucceeded_webhookEvents
      | apply handleInvoicePaymentFailed_webhookEvents

/-- Claim C6: when the type-specific handler throws, `handleWebhook` updates
the stored InboundEvent row to `processed = true` with the handler's error
message recorded and a processed timestamp, and re-raises the exception to the
caller. -/
theorem handleWebhook_handler_error (scfg : StripeCfg) (api : StripeApi)
    (verify : String → String → Option StripeEvent) (signature payload : String)
    (now : Int) (db : DB) (ev : StripeEvent) (db2 : DB) (msg : String)
    (hv : verify payload signature = some ev)
    (hfresh : ∀ r ∈ db.webhookEvents, r.eventId ≠ ev.id)
    (hd : dispatchEvent scfg api ev (insertEventRow db ev now) = (db2, some msg)) :
    handleWebhook scfg api verify signature payload now db =
      (.error msg, markEventProcessed db2 ev.id now (some msg)) ∧
    findWebhookRow (markEventProcessed db2 ev.id now (some msg)) ev.id =
      some { source := "stripe", eventId := ev.id, eventType := ev.type,
             processed := true, processedAt := some now, error := some msg,
             createdAt := now } := by
  have hnone : findWebhookRow db ev.id = none := by
    rw [findWebhookRow]
    exact List.find?_eq_none.mpr fun r hr => by simp [hfresh r hr]
  constructor
  · simp only [handleWebhook, hv, hnone, Option.isSome_none, Bool.false_eq_true, if_false, hd]
  · have hdb2 : db2.webhookEvents = db.webhookEvents ++ [newEventRow ev now] := by
      have h := dispatchEvent_webhookEvents scfg api ev (insertEventRow db ev now)
      rw [hd] at h
      simpa [insertEventRow] using h
    have holdnone : (db.webhookEvents.map (markRow ev.id now (some msg))).find?
        (fun r => decide (r.eventId = ev.id)) = none := by
      apply List.find?_eq_none.mpr
      intro r hr
      obtain ⟨r0, hr0, rfl⟩ := List.mem_map.mp hr
      simp [markRow, hfresh r0 hr0]
    rw [findWebhookRow, markEventProcessed, hdb2, List.map_append, List.find?_append, holdnone]
    simp [newEventRow, markRow]

/-- A subscription-deleted event for a user missing from the database, used by
the C6 witness: the handler's Prisma `user.update` throws. -/
theorem handleWebhook_handler_error_witness :
    handleWebhook scfgEx apiDown (fun _ _ => some evt1Again) "sig" "{}" 3000 emptyDB =
      (.error "Record to update not found.",
        markEventProcessed (insertEventRow emptyDB evt1Again 3000) "evt_1" 3000
          (some "Record to update not found.")) ∧
    findWebhookRow
      (markEventProcessed (insertEventRow emptyDB evt1Again 3000) "evt_1" 3000
        (some "Record to update not found.")) "evt_1" =
      some { source := "stripe", eventId := "evt_1",
             eventType := "customer.subscription.deleted", processed := true,
             processedAt := some 3000, error := some "Record to update not found.",
             createdAt := 3000 } :=
  handleWebhook_handler_error scfgEx apiDown (fun _ _ => some evt1Again) "sig" "{}" 3000
    emptyDB evt1Again (insertEventRow emptyDB evt1Again 3000) "Record to update not found."
    rfl (by simp [emptyDB]) (by decide)

/-! ## Arithmetic facts about the JavaScript number helpers -/

/-- `Math.round` on an integral value is the identity. -/
theorem jsRound_intCast (a : Int) : jsRound (a : Rat) = a := by
  rw [jsRound, Int.floor_eq_iff]
  constructor
  · norm_num
  · norm_num

/-- Dividing an integer by 100 and rendering the quotient recovers the exact
two-decimal rendering of the integer as cents. -/
theorem ratToJsString_div100 (a : Int) : ratToJsString ((a : Rat) / 100) = renderCents a := by
  have hq : (a : Rat) / 100 = Rat.divInt a 100 := by
    rw [Rat.divInt_eq_div]
    norm_num
  have hden : ((((a : Rat) / 100).den : Int)) ∣ 100 := by
    rw [hq]
    exact Rat.den_dvd a 100
  have hden0 : (((a : Rat) / 100).den : Rat) ≠ 0 := by
    exact_mod_cast Rat.den_ne_zero _
  have hQ : (((a : Rat) / 100).num : Rat) * 100 = (a : Rat) * (((a : Rat) / 100).den : Rat) := by
    have h := Rat.num_div_den ((a : Rat) / 100)
    field_simp at h
    linarith [h]
  have hZ : ((a : Rat) / 100).num * 100 = a * (((a : Rat) / 100).den : Int) := by
    exact_mod_cast hQ
  obtain ⟨k, hk⟩ := hden
  have hdenpos : (0 : Int) < (((a : Rat) / 100).den : Int) := by
    exact_mod_cast (((a : Rat) / 100).pos)
  have hnum : ((a : Rat) / 100).num * ((100 : Int) / (((a : Rat) / 100).den : Int)) = a := by
    rw [hk, Int.mul_ediv_cancel_left _ (by omega)]
    have h2 : ((a : Rat) / 100).num * ((((a : Rat) / 100).den : Int) * k) =
        a * (((a : Rat) / 100).den : Int) := by rw [← hk]; exact hZ
    have h3 : (((a : Rat) / 100).den : Int) * (((a : Rat) / 100).num * k) =
        (((a : Rat) / 100).den : Int) * a := by ring_nf; ring_nf at h2; linarith [h2]
    exact (mul_left_cancel₀ (by omega) h3)
  rw [ratToJsString, if_pos, hnum]
  simp [Int.emod_emod_of_dvd, Int.emod_eq_zero_of_dvd ⟨k, hk⟩]

/-! ## Row lookup after a tracked send -/

/-- Looking up the freshly created TrackingEvent row after the send-status
update: rows already present have different ids and are untouched, the new row
is updated to the send outcome. -/
theorem find?_sentRow_append (old : List TrackingEventRow) (row : TrackingEventRow)
    (i : Nat) (s : Bool) (ts : Option Int) (hid : row.id = i)
    (hfresh : ∀ r ∈ old, r.id ≠ i) :
    ((old ++ [row]).map (sentRow i s ts)).find? (fun r => decide (r.id = i)) =
      some { row with sentToTracker := s, sentAt := ts } := by
  rw [List.map_append, List.find?_append]
  have hleft : (old.map (sentRow i s ts)).find? (fun r => decide (r.id = i)) = none := by
    apply List.find?_eq_none.mpr
    intro r hr
    obtain ⟨r0, hr0, rfl⟩ := List.mem_map.mp hr
    simp [sentRow, hfresh r0 hr0]
  rw [hleft]
  simp [sentRow, hid]

/-! ## Claim C5 — minor units stored, major units only on the wire -/

/-- Claim C5: a purchase tracked with a click identifier stores the amount in
integer minor units on the ConversionEvent row (`amount = a` for an integral
`a`), and the single outbound postback it issues carries `payout` equal to the
exact decimal rendering of `a / 100` (major units) — e.g. `999 ↦ "9.99"` —
with the division by 100 happening only in the composition of that request. -/
theorem trackPurchase_minor_units (cfg : KeitaroCfg) (tr : Tracker) (now : Int)
    (uid : String) (a : Int) (cur c : String) (w : World)
    (hc : c ≠ "") (hcur : cur ≠ "")
    (hfresh : ∀ r ∈ w.db.trackingEvents, r.id ≠ w.db.nextTrackingId) :
    findTracking (trackPurchase cfg tr now uid (a : Rat) cur (some c) w).db
        w.db.nextTrackingId =
      some { id := w.db.nextTrackingId, userId := some uid, eventType := "purchase",
             subId := some c, status := some cfg.statusPurchase, amount := some a,
             currency := some cur,
             sentToTracker := postbackResult cfg tr c cfg.statusPurchase
               (some ((a : Rat) / 100)) (some cur),
             sentAt := if postbackResult cfg tr c cfg.statusPurchase
                 (some ((a : Rat) / 100)) (some cur) then some now else none,
             createdAt := now } ∧
    (trackPurchase cfg tr now uid (a : Rat) cur (some c) w).sent =
      w.sent ++ [{ base := cfg.trackerUrl ++ "/postback",
                   params := [("subid", c), ("status", cfg.statusPurchase),
                              ("key", cfg.postbackKey), ("payout", renderCents a),
                              ("currency", cur)] }] := by
  have hct : strTruthy (some c) = true := by simp [strTruthy, hc]
  have hcurt : strTruthy (some cur) = true := by simp [strTruthy, hcur]
  constructor
  · rw [trackPurchase]
    simp only [hct, if_true, findTracking, sendPostback, updateTrackingSent, sendPostback,
      postbackResult, jsRound_intCast, Option.getD_some]
    exact find?_sentRow_append w.db.trackingEvents _ _ _ _ rfl hfresh
  · rw [trackPurchase]
    simp only [hct, if_true, sendPostback, Option.getD_some]
    rw [postbackRequest, postbackParams, ratToJsString_div100]
    simp [hcurt]

/-- Witness for C5: `recordPurchase(u1, 999, "USD", click1)` against a tracker
answering 200 yields a row with `amount = 999` and a postback whose `payout`
parameter is the string "9.99". -/
theorem trackPurchase_minor_units_witness :
    findTracking (trackPurchase cfgEx tracker200 7000 "u1" ((999 : Int) : Rat) "USD"
        (some "click1") emptyWorld).db 0 =
      some { id := 0, userId := some "u1", eventType := "purchase",
             subId := some "click1", status := some "sale", amount := some 999,
             currency := some "USD", sentToTracker := true, sentAt := some 7000,
             createdAt := 7000 } ∧
    (trackPurchase cfgEx tracker200 7000 "u1" ((999 : Int) : Rat) "USD"
        (some "click1") emptyWorld).sent =
      [{ base := "https://tracker.example/postback",
         params := [("subid", "click1"), ("status", "sale"), ("key", "k1"),
                    ("payout", "9.99"), ("currency", "USD")] }] := by
  have h := trackPurchase_minor_units cfgEx tracker200 7000 "u1" 999 "USD" "click1"
    emptyWorld (by decide) (by decide) (by simp [emptyWorld, emptyDB])
  have hb : postbackResult cfgEx tracker200 "click1" cfgEx.statusPurchase
      (some (((999 : Int) : Rat) / 100)) (some "USD") = true := rfl
  constructor
  · have h1 := h.1
    rw [hb] at h1
    simpa [emptyWorld, emptyDB, cfgEx] using h1
  · have h2 := h.2
    have : renderCents 999 = "9.99" := by decide
    simpa [emptyWorld, emptyDB, cfgEx, this] using h2

/-! ## Claim C7 — tracker failures never block the business action -/

/-- Claim C7: a tracker failure (network error, timeout, 5xx, or any failed
response, i.e. any outcome classified `false`) never makes `trackPurchase`
throw — in this embedding `trackPurchase` is a total function and every
database operation it performs still happens: the ConversionEvent row is
created with `sentToTracker = false` and a `null` sent timestamp, so the
calling business action completes normally. -/
theorem trackPurchase_nonblocking (cfg : KeitaroCfg) (tr : Tracker) (now : Int)
    (uid : String) (a : Rat) (cur c : String) (w : World)
    (hc : c ≠ "")
    (hfresh : ∀ r ∈ w.db.trackingEvents, r.id ≠ w.db.nextTrackingId)
    (hfail : postbackResult cfg tr c cfg.statusPurchase (some (a / 100)) (some cur) = false) :
    findTracking (trackPurchase cfg tr now uid a cur (some c) w).db w.db.nextTrackingId =
      some { id := w.db.nextTrackingId, userId := some uid, eventType := "purchase",
             subId := some c, status := some cfg.statusPurchase,
             amount := some (jsRound a), currency := some cur,
             sentToTracker := false, sentAt := none, createdAt := now } := by
  have hct : strTruthy (some c) = true := by simp [strTruthy, hc]
  rw [trackPurchase]
  simp only [hct, if_true, findTracking, sendPostback, updateTrackingSent,
    postbackResult, Option.getD_some] at hfail ⊢
  rw [hfail]
  simp only [Bool.false_eq_true, if_false]
  exact find?_sentRow_append w.db.trackingEvents _ _ _ _ rfl hfresh

/-- Witness for C7: a purchase of 999 cents against a tracker that always
times out still creates the row, unsent. -/
theorem trackPurchase_nonblocking_witness :
    findTracking (trackPurchase cfgEx trackerDown 8000 "u1" ((999 : Int) : Rat) "USD"
        (some "click1") emptyWorld).db 0 =
      some { id := 0, userId := some "u1", eventType := "purchase",
             subId := some "click1", status := some "sale", amount := some 999,
             currency := some "USD", sentToTracker := false, sentAt := none,
             createdAt := 8000 } := by
  have h := trackPurchase_nonblocking cfgEx trackerDown 8000 "u1" ((999 : Int) : Rat) "USD"
    "click1" emptyWorld (by decide) (by simp [emptyWorld, emptyDB]) rfl
  rw [jsRound_intCast] at h
  simpa [emptyWorld, emptyDB, cfgEx] using h

/-! ## Claim C10 — click identifier fallback to the User record -/

/-- Claim C10: when `trackRegistration` / `trackPurchase` is called without a
(truthy) click identifier argument, the service falls back to the
`keitaroSubId` stored on the User row; only when that too is absent (no user
row, or a falsy stored value) does the call no-op — and then no
ConversionEvent row is created at all (the world is unchanged). When the
fallback value exists, a row is created carrying it as `subId`. -/
theorem track_clickid_fallback (cfg : KeitaroCfg) (tr : Tracker) (now : Int)
    (uid : String) (cid : Option String) (a : Rat) (cur : String) (w : World)
    (u : UserRow) (hfalsy : strTruthy cid = false) :
    (findUser w.db uid = none →
       trackRegistration cfg tr now uid cid w = w ∧
       trackPurchase cfg tr now uid a cur cid w = w) ∧
    (findUser w.db uid = some u → strTruthy u.keitaroSubId = false →
       trackRegistration cfg tr now uid cid w = w ∧
       trackPurchase cfg tr now uid a cur cid w = w) ∧
    (findUser w.db uid = some u → strTruthy u.keitaroSubId = true →
       (∀ r ∈ w.db.trackingEvents, r.id ≠ w.db.nextTrackingId) →
       (∃ row, findTracking (trackRegistration cfg tr now uid cid w).db
            w.db.nextTrackingId = some row ∧
          row.subId = u.keitaroSubId ∧ row.eventType = "registration") ∧
       (∃ row, findTracking (trackPurchase cfg tr now uid a cur cid w).db
            w.db.nextTrackingId = some row ∧
          row.subId = u.keitaroSubId ∧ row.eventType = "purchase")) := by
  have hstn : strTruthy none = false := rfl
  refine ⟨fun hn => ?_, fun hs hk => ?_, fun hs hk hfresh => ?_⟩
  · constructor
    · rw [trackRegistration]
      simp only [hfalsy, Bool.false_eq_true, if_false, hn, hstn, ite_self]
      simp
    · rw [trackPurchase]
      simp only [hfalsy, Bool.false_eq_true, if_false, hn, hstn, ite_self]
      simp
  · constructor
    · rw [trackRegistration]
      have : jsOrNone u.keitaroSubId = none := by simp [jsOrNone, hk]
      simp only [hfalsy, Bool.false_eq_true, if_false, hs, this, hstn, ite_self]
      simp
    · rw [trackPurchase]
      have : jsOrNone u.keitaroSubId = none := by simp [jsOrNone, hk]
      simp only [hfalsy, Bool.false_eq_true, if_false, hs, this, hstn, ite_self]
      simp
  · have hjs : jsOrNone u.keitaroSubId = u.keitaroSubId := by simp [jsOrNone, hk]
    constructor
    · refine ⟨{ id := w.db.nextTrackingId, userId := some uid, eventType := "registration",
                subId := u.keitaroSubId, status := some cfg.statusRegistration, amount := none,
                currency := none,
                sentToTracker := postbackResult cfg tr (u.keitaroSubId.getD "")
                  cfg.statusRegistration none none,
                sentAt := if postbackResult cfg tr (u.keitaroSubId.getD "")
                    cfg.statusRegistration none none then some now else none,
                createdAt := now }, ?_, rfl, rfl⟩
      rw [trackRegistration]
      simp only [hfalsy, Bool.false_eq_true, if_false, hs, hjs, hk, if_true, findTracking,
        sendPostback, updateTrackingSent, postbackResult]
      exact find?_sentRow_append w.db.trackingEvents _ _ _ _ rfl hfresh
    · refine ⟨{ id := w.db.nextTrackingId, userId := some uid, eventType := "purchase",
                subId := u.keitaroSubId, status := some cfg.statusPurchase,
                amount := some (jsRound a), currency := some cur,
                sentToTracker := postbackResult cfg tr (u.keitaroSubId.getD "")
                  cfg.statusPurchase (some (a / 100)) (some cur),
                sentAt := if postbackResult cfg tr (u.keitaroSubId.getD "")
                    cfg.statusPurchase (some (a / 100)) (some cur) then some now else none,
                createdAt := now }, ?_, rfl, rfl⟩
      rw [trackPurchase]
      simp only [hfalsy, Bool.false_eq_true, if_false, hs, hjs, hk, if_true, findTracking,
        sendPostback, updateTrackingSent, postbackResult]
      exact find?_sentRow_append w.db.trackingEvents _ _ _ _ rfl hfresh

/-- Witness for C10: with no click identifier argument, the stored
`keitaroSubId` of the user is used as the fallback subId of the created
registration row. -/
theorem track_clickid_fallback_witness :
    ∃ row, findTracking (trackRegistration cfgEx tracker200 9000 "u1" none worldUser).db 0 =
        some row ∧ row.subId = some "stored_click" ∧ row.eventType = "registration" := by
  have h := track_clickid_fallback cfgEx tracker200 9000 "u1" none ((999 : Int) : Rat)
    "USD" worldUser userWithSub rfl
  have h3 := (h.2.2 (by decide) (by decide) (by simp [worldUser, emptyDB])).1
  simpa [worldUser, emptyDB, userWithSub] using h3

/-! ## Retry-sweeper lemmas -/

theorem sendPostback_parts (cfg : KeitaroCfg) (tr : Tracker) (clickId status : String)
    (amount : Option Rat) (currency : Option String) (w : World) :
    sendPostback cfg tr clickId status amount currency w =
      (postbackResult cfg tr clickId status amount currency,
       { w with sent := w.sent ++ [postbackRequest cfg clickId status amount currency] }) := rfl

theorem sentRow_id (i : Nat) (s : Bool) (ts : Option Int) (r : TrackingEventRow) :
    (sentRow i s ts r).id = r.id := by
  rw [sentRow]
  split <;> rfl

theorem rowAfterRetry_id (cfg : KeitaroCfg) (tr : Tracker) (now : Int)
    (e r : TrackingEventRow) : (rowAfterRetry cfg tr now e r).id = r.id := by
  rw [rowAfterRetry]
  split
  · exact sentRow_id _ _ _ _
  · rfl

theorem foldRow_id (cfg : KeitaroCfg) (tr : Tracker) (now : Int)
    (es : List TrackingEventRow) (r : TrackingEventRow) :
    (foldRow cfg tr now es r).id = r.id := by
  induction es generalizing r with
  | nil => rfl
  | cons e es ih =>
    show (foldRow cfg tr now es (rowAfterRetry cfg tr now e r)).id = r.id
    rw [ih, rowAfterRetry_id]

/-- A skipped row (falsy subId, unhandled event type, or purchase without a
truthy amount) leaves the loop iteration a complete no-op. -/
theorem retryOne_skip (cfg : KeitaroCfg) (tr : Tracker) (now : Int) (w : World)
    (e : TrackingEventRow) (h : retryAttempt cfg tr e = none) :
    retryOne cfg tr now w e = w := by
  rw [retryOne]
  rw [retryAttempt] at h
  by_cases h1 : strTruthy e.subId = false
  · rw [if_pos h1]
  · rw [if_neg h1] at h ⊢
    by_cases h2 : e.eventType = "registration"
    · rw [if_pos h2] at h
      exact absurd h (by simp)
    · rw [if_neg h2] at h ⊢
      by_cases h3 : e.eventType = "purchase" ∧ intTruthy e.amount
      · rw [if_pos h3] at h
        exact absurd h (by simp)
      · rw [if_neg h3] at h ⊢
        simp

/-- One loop iteration acts on the tracking table as the per-row function
`rowAfterRetry`. -/
theorem retryOne_db (cfg : KeitaroCfg) (tr : Tracker) (now : Int) (w : World)
    (e : TrackingEventRow) :
    (retryOne cfg tr now w e).db.trackingEvents =
      w.db.trackingEvents.map (rowAfterRetry cfg tr now e) := by
  by_cases h1 : strTruthy e.subId = false
  · have hs : retrySuccess cfg tr e = false := by
      rw [retrySuccess, retryAttempt, if_pos h1]
      rfl
    rw [retryOne, if_pos h1, eq_comm]
    apply map_eq_self_of
    intro r hr
    rw [rowAfterRetry, hs]
    simp
  · by_cases h2 : e.eventType = "registration"
    · have hs : retrySuccess cfg tr e = postbackResult cfg tr (e.subId.getD "")
          (jsOrStr e.status cfg.statusRegistration) none none := by
        rw [retrySuccess, retryAttempt, if_neg h1, if_pos h2]
        rfl
      rw [retryOne, if_neg h1]
      simp only [if_pos h2, sendPostback_parts]
      by_cases hb : postbackResult cfg tr (e.subId.getD "")
          (jsOrStr e.status cfg.statusRegistration) none none = true
      · simp only [hb, if_true, updateTrackingSent]
        apply List.map_congr_left
        intro r hr
        rw [rowAfterRetry, hs, hb]
        simp
      · rw [Bool.not_eq_true] at hb
        simp only [hb, Bool.false_eq_true, if_false]
        rw [eq_comm]
        apply map_eq_self_of
        intro r hr
        rw [rowAfterRetry, hs, hb]
        simp
    · by_cases h3 : e.eventType = "purchase" ∧ intTruthy e.amount
      · have hs : retrySuccess cfg tr e = postbackResult cfg tr (e.subId.getD "")
            (jsOrStr e.status cfg.statusPurchase)
            (some ((e.amount.getD 0 : Int) / (100 : Rat))) (some (jsOrStr e.currency "USD")) := by
          rw [retrySuccess, retryAttempt, if_neg h1, if_neg h2, if_pos h3]
          rfl
        rw [retryOne, if_neg h1]
        simp only [if_neg h2, if_pos h3, sendPostback_parts]
        by_cases hb : postbackResult cfg tr (e.subId.getD "")
            (jsOrStr e.status cfg.statusPurchase)
            (some ((e.amount.getD 0 : Int) / (100 : Rat))) (some (jsOrStr e.currency "USD")) = true
        · simp only [hb, if_true, updateTrackingSent]
          apply List.map_congr_left
          intro r hr
          rw [rowAfterRetry, hs, hb]
          simp
        · rw [Bool.not_eq_true] at hb
          simp only [hb, Bool.false_eq_true, if_false]
          rw [eq_comm]
          apply map_eq_self_of
          intro r hr
          rw [rowAfterRetry, hs, hb]
          simp
      · have hatt : retryAttempt cfg tr e = none := by
          rw [retryAttempt, if_neg h1, if_neg h2, if_neg h3]
        have hs : retrySuccess cfg tr e = false := by
          rw [retrySuccess, hatt]
          rfl
        rw [retryOne_skip cfg tr now w e hatt, eq_comm]
        apply map_eq_self_of
        intro r hr
        rw [rowAfterRetry, hs]
        simp

theorem foldl_retryOne_tracking (cfg : KeitaroCfg) (tr : Tracker) (now : Int)
    (es : List TrackingEventRow) (w : World) :
    ((es.foldl (retryOne cfg tr now) w).db.trackingEvents) =
      w.db.trackingEvents.map (foldRow cfg tr now es) := by
  induction es generalizing w with
  | nil =>
    rw [List.foldl_nil, eq_comm]
    exact map_eq_self_of fun r hr => rfl
  | cons e es ih =>
    rw [List.foldl_cons, ih, retryOne_db, List.map_map]
    exact List.map_congr_left fun r hr => rfl

theorem find?_map_preserve_id {F : TrackingEventRow → TrackingEventRow}
    (hF : ∀ r, (F r).id = r.id) (l : List TrackingEventRow) (i : Nat) :
    (l.map F).find? (fun r => decide (r.id = i)) =
      (l.find? (fun r => decide (r.id = i))).map F := by
  rw [List.find?_map]
  have h : ((fun r => decide (r.id = i)) ∘ F) = (fun r => decide (r.id = i)) := by
    funext r
    simp [Function.comp, hF r]
  rw [h]

theorem find?_id_of_mem_nodup {l : List TrackingEventRow} {e : TrackingEventRow}
    (hnd : (l.map TrackingEventRow.id).Nodup) (he : e ∈ l) :
    l.find? (fun r => decide (r.id = e.id)) = some e := by
  induction l with
  | nil => cases he
  | cons x l ih =>
    rw [List.map_cons, List.nodup_cons] at hnd
    rcases List.mem_cons.mp he with rfl | hmem
    · rw [List.find?_cons_of_pos]
      simp
    · have hne : ¬ (x.id = e.id) := by
        intro hEq
        exact hnd.1 (hEq ▸ List.mem_map_of_mem TrackingEventRow.id hmem)
      rw [List.find?_cons_of_neg]
      · exact ih hnd.2 hmem
      · simp [hne]

theorem foldRow_not_mem (cfg : KeitaroCfg) (tr : Tracker) (now : Int)
    {es : List TrackingEventRow} {r : TrackingEventRow}
    (h : ∀ e ∈ es, e.id ≠ r.id) : foldRow cfg tr now es r = r := by
  induction es with
  | nil => rfl
  | cons e es ih =>
    have hne : (r.id == e.id) = false := by
      simp only [beq_eq_false_iff_ne, ne_eq]
      exact fun hh => h e (List.mem_cons_self e es) hh.symm
    have h1 : rowAfterRetry cfg tr now e r = r := by
      rw [rowAfterRetry]
      split
      · rw [sentRow, hne]
        simp
      · rfl
    show foldRow cfg tr now es (rowAfterRetry cfg tr now e r) = r
    rw [h1]
    exact ih fun e' he' => h e' (List.mem_cons_of_mem _ he')

theorem foldRow_mem (cfg : KeitaroCfg) (tr : Tracker) (now : Int)
    {es : List TrackingEventRow} {e : TrackingEventRow}
    (hnd : (es.map TrackingEventRow.id).Nodup) (he : e ∈ es) :
    foldRow cfg tr now es e =
      if retrySuccess cfg tr e then markSentRow now e else e := by
  induction es with
  | nil => cases he
  | cons x es ih =>
    rw [List.map_cons, List.nodup_cons] at hnd
    rcases List.mem_cons.mp he with rfl | hmem
    · show foldRow cfg tr now es (rowAfterRetry cfg tr now e e) = _
      have hnot : ∀ e' ∈ es, e'.id ≠ e.id := by
        intro e' he' hEq
        apply hnd.1
        have hm : e'.id ∈ es.map TrackingEventRow.id := List.mem_map_of_mem _ he'
        rwa [hEq] at hm
      by_cases hs : retrySuccess cfg tr e = true
      · have h1 : rowAfterRetry cfg tr now e e = markSentRow now e := by
          rw [rowAfterRetry, if_pos hs, sentRow]
          simp [markSentRow]
        have h2 : foldRow cfg tr now es (markSentRow now e) = markSentRow now e := by
          apply foldRow_not_mem
          intro e' he'
          simpa [markSentRow] using hnot e' he'
        rw [h1, h2, if_pos hs]
      · have hsf : retrySuccess cfg tr e = false := by
          rwa [Bool.not_eq_true] at hs
        have h1 : rowAfterRetry cfg tr now e e = e := by
          rw [rowAfterRetry, hsf]
          simp
        have h2 : foldRow cfg tr now es e = e := foldRow_not_mem cfg tr now hnot
        rw [h1, h2, hsf]
        simp
    · have hne : (e.id == x.id) = false := by
        simp only [beq_eq_false_iff_ne, ne_eq]
        intro hEq
        apply hnd.1
        have hm : e.id ∈ es.map TrackingEventRow.id := List.mem_map_of_mem _ hmem
        rwa [hEq] at hm
      have h1 : rowAfterRetry cfg tr now x e = e := by
        rw [rowAfterRetry]
        split
        · rw [sentRow, hne]
          simp
        · rfl
      show foldRow cfg tr now es (rowAfterRetry cfg tr now x e) = _
      rw [h1]
      exact ih hnd.2 hmem

/-- The fate of one selected row across the whole sweeper run: it ends up
marked sent exactly when its loop iteration succeeds. -/
theorem retry_run_row (cfg : KeitaroCfg) (tr : Tracker) (now : Int) (w : World)
    (hnd : (w.db.trackingEvents.map TrackingEventRow.id).Nodup)
    (e : TrackingEventRow) (hsel : e ∈ selectedEvents now w.db) :
    findTracking (retryFailedPostbacks cfg tr now w).db e.id =
      some (if retrySuccess cfg tr e then markSentRow now e else e) := by
  have hmemL : e ∈ w.db.trackingEvents :=
    List.mem_of_mem_filter (List.mem_of_mem_take hsel)
  have hndSel : ((selectedEvents now w.db).map TrackingEventRow.id).Nodup :=
    hnd.sublist (List.Sublist.map _
      ((List.take_sublist _ _).trans (List.filter_sublist _)))
  rw [retryFailedPostbacks, findTracking, foldl_retryOne_tracking,
    find?_map_preserve_id (foldRow_id cfg tr now _),
    find?_id_of_mem_nodup hnd hmemL, Option.map_some',
    foldRow_mem cfg tr now hndSel hsel]

/-! ## Claim C4 — retry sweeper selection window, batch bound, update rule -/

/-- Claim C4: the Retry Sweeper selects only ConversionEvent rows with
`sentToTracker = false` created within the last 24 hours, at most 100 per
invocation (and all of them whenever at most 100 rows are eligible — in
particular a row created more than 24 hours ago is never selected); and after
the run, a selected row is updated to `sentToTracker = true` with a sent
timestamp exactly when its re-sent postback succeeds, and is left unchanged
otherwise. Row ids are assumed pairwise distinct (a database uniqueness
constraint). -/
theorem retry_sweeper (cfg : KeitaroCfg) (tr : Tracker) (now : Int) (w : World)
    (hnd : (w.db.trackingEvents.map TrackingEventRow.id).Nodup) :
    (∀ e ∈ selectedEvents now w.db,
        e.sentToTracker = false ∧ now - 86400000 ≤ e.createdAt) ∧
    (selectedEvents now w.db).length ≤ 100 ∧
    ((w.db.trackingEvents.filter fun e =>
        !e.sentToTracker && decide (now - 86400000 ≤ e.createdAt)).length ≤ 100 →
      ∀ e ∈ w.db.trackingEvents, e.sentToTracker = false →
        now - 86400000 ≤ e.createdAt → e ∈ selectedEvents now w.db) ∧
    (∀ e ∈ selectedEvents now w.db,
      findTracking (retryFailedPostbacks cfg tr now w).db e.id =
        some (if retrySuccess cfg tr e then markSentRow now e else e)) := by
  refine ⟨?_, ?_, ?_, ?_⟩
  · intro e he
    have hf := (List.mem_filter.mp (List.mem_of_mem_take he)).2
    simp only [Bool.and_eq_true, Bool.not_eq_true', decide_eq_true_eq] at hf
    exact hf
  · exact List.length_take_le _ _
  · intro hlen e he hs ht
    rw [selectedEvents, List.take_of_length_le hlen]
    exact List.mem_filter.mpr ⟨he, by simp [hs, ht]⟩
  · exact fun e he => retry_run_row cfg tr now w hnd e he

/-- Witness for C4 at concrete input: with `now = 100000000` ms, the unsent
row created one hour ago is selected and, the tracker answering 200, marked
sent with a timestamp; the row created 25 hours ago is not selected. -/
theorem retry_sweeper_witness :
    rowFresh ∈ selectedEvents 100000000 wRetry.db ∧
    rowOld ∉ selectedEvents 100000000 wRetry.db ∧
    findTracking (retryFailedPostbacks cfgEx tracker200 100000000 wRetry).db 1 =
      some (markSentRow 100000000 rowFresh) := by
  refine ⟨by decide, ?_, ?_⟩
  · intro hmem
    have h := (retry_sweeper cfgEx tracker200 100000000 wRetry (by decide)).1 rowOld hmem
    exact absurd h.2 (by decide)
  · have h := (retry_sweeper cfgEx tracker200 100000000 wRetry (by decide)).2.2.2
      rowFresh (by decide)
    have hb : retrySuccess cfgEx tracker200 rowFresh = true := by decide
    rw [hb] at h
    simpa using h

/-! ## Claim C9 — rows the retry loop cannot re-send are left untouched -/

/-- Claim C9: a selected row whose event type is neither "registration" nor
"purchase", or whose click identifier is falsy, or which is a "purchase"
without a stored amount, causes no postback (the loop body is a complete
no-op on any world) and is left unchanged by the sweeper run, its
`sentToTracker` still `false`; it therefore still satisfies the selection
predicate at any time within 24 hours of its creation, so it is selected
again by every invocation inside that window. -/
theorem retry_sweeper_skips (cfg : KeitaroCfg) (tr : Tracker) (now : Int) (w : World)
    (e : TrackingEventRow)
    (hnd : (w.db.trackingEvents.map TrackingEventRow.id).Nodup)
    (hsel : e ∈ selectedEvents now w.db)
    (hskip : (e.eventType ≠ "registration" ∧ e.eventType ≠ "purchase") ∨
             strTruthy e.subId = false ∨
             (e.eventType = "purchase" ∧ e.amount = none)) :
    retryAttempt cfg tr e = none ∧
    (∀ w0, retryOne cfg tr now w0 e = w0) ∧
    findTracking (retryFailedPostbacks cfg tr now w).db e.id = some e ∧
    e.sentToTracker = false ∧
    (∀ t : Int, t - 86400000 ≤ e.createdAt →
      (!e.sentToTracker && decide (t - 86400000 ≤ e.createdAt)) = true) := by
  have hf := (List.mem_filter.mp (List.mem_of_mem_take hsel)).2
  simp only [Bool.and_eq_true, Bool.not_eq_true', decide_eq_true_eq] at hf
  have hatt : retryAttempt cfg tr e = none := by
    rw [retryAttempt]
    by_cases h1 : strTruthy e.subId = false
    · rw [if_pos h1]
    · rcases hskip with ⟨ha, hb⟩ | h | ⟨ha, hb⟩
      · rw [if_neg h1, if_neg ha, if_neg]
        intro hc
        exact hb hc.1
      · exact absurd h h1
      · rw [if_neg h1, if_neg (by simp [ha]), if_neg]
        intro hc
        rw [hb] at hc
        exact absurd hc.2 (by simp [intTruthy])
  have hsucc : retrySuccess cfg tr e = false := by
    rw [retrySuccess, hatt]
    rfl
  refine ⟨hatt, fun w0 => retryOne_skip cfg tr now w0 e hatt, ?_, hf.1, ?_⟩
  · have h := retry_run_row cfg tr now w hnd e hsel
    rwa [hsucc, if_neg (by simp)] at h
  · intro t ht
    simp [hf.1, ht]

/-- Witness for C9 at concrete input: the unsent row of type "custom" inside
the window is selected but triggers no postback and survives the sweeper run
unchanged. -/
theorem retry_sweeper_skips_witness :
    retryAttempt cfgEx tracker200 rowCustom = none ∧
    findTracking (retryFailedPostbacks cfgEx tracker200 100000000 wRetry).db 3 =
      some rowCustom ∧
    retryOne cfgEx tracker200 100000000 wRetry rowCustom = wRetry := by
  have h := retry_sweeper_skips cfgEx tracker200 100000000 wRetry rowCustom
    (by decide) (by decide) (Or.inl (by decide))
  exact ⟨h.1, h.2.2.1, h.2.1 wRetry⟩

end TrafficWork
